import Mathlib

/-!
Shallow embedding of `src/start.py`, the OnlyWorlds tool launcher.
The script prints a banner, changes the working directory to its own
location, starts a daemon thread that opens a web browser after one
second, enables the allow-reuse-address socket option, and serves the
current directory over HTTP on port 8080, with a Python-2 fallback
server path and keyboard-interrupt handlers around both attempts.
`main` is modelled as a function from an environment (how each server
attempt ends, whether the browser-open call raises) to the list of its
observable effects together with its final outcome.
-/

namespace StartPy

/-- Python exception values that can reach the handlers in `main`. -/
inductive PyExc where
  | keyboardInterrupt
  | systemExit (code : Nat)
  | other (name : String)
deriving DecidableEq

/-- Observable effects of `main`: console prints, the `os.chdir` call,
starting the browser thread, setting `allow_reuse_address`, constructing a
server (which binds host/port), running `serve_forever`, closing the
listening socket. -/
inductive Event where
  | printed (s : String)
  | chdir
  | browserThreadStart
  | setAllowReuseAddress (b : Bool)
  | construct (api : String) (host : String) (port : Nat) (viaWith : Bool)
  | serve
  | closeSocket
deriving DecidableEq

/-- How a piece of code ends: it completes normally or lets a Python
exception escape. -/
inductive Outcome where
  | normal
  | raised (e : PyExc)
deriving DecidableEq

/-- Process exit status determined by the outcome of `main` at module level:
CPython maps normal return to status 0 and an uncaught `SystemExit c` to
status `c`; other uncaught exceptions print a traceback (their status is
not modelled here). -/
def exitCode : Outcome → Option Nat
  | .normal => some 0
  | .raised (.systemExit c) => some c
  | .raised _ => none

/-- The guard of `except KeyboardInterrupt:`. -/
def isKI : PyExc → Bool
  | .keyboardInterrupt => true
  | _ => false

/-- One `except` clause: which exceptions it matches, and the effect of
running its suite. -/
structure Handler where
  guards : PyExc → Bool
  run : PyExc → List Event × Outcome

/-- Semantics of a Python `try` statement: the `except` clauses are matched
in order against an exception raised by the `try` suite; whatever the
chosen clause's suite does (including raising) is final — an exception
raised inside an `except` suite is never matched against the sibling
clauses of the same `try` statement. -/
def tryExcept (body : List Event × Outcome) (hs : List Handler) :
    List Event × Outcome :=
  match body with
  | (evs, .raised e) =>
    match hs.find? (fun h => h.guards e) with
    | some h => (evs ++ (h.run e).1, (h.run e).2)
    | none => (evs, .raised e)
  | b => b

/-- `port = 8080` (line 24). -/
def port : Nat := 8080

/-- `"=" * 40`. -/
def eqLine : String := String.mk (List.replicate 40 '=')

/-- The f-string `f"Starting server at http://localhost:{port}"`. -/
def startingMsg : String := "Starting server at http://localhost:" ++ toString port

/-- The banner printed at the top of `main` (lines 26-36). -/
def bannerPrints : List Event :=
  [ .printed "", .printed eqLine, .printed "     OnlyWorlds Tool Template",
    .printed eqLine, .printed "", .printed startingMsg,
    .printed "Press Ctrl+C to stop", .printed "",
    .printed "Note: \x27Broken pipe\x27 errors are normal and can be ignored.",
    .printed "They occur when the browser cancels requests.", .printed "" ]

/-- The url passed to `webbrowser.open`: the f-string
`f'http://localhost:{port}'` (line 45). -/
def browserUrl : String := "http://localhost:" ++ toString port

/-- Observable effects of the `open_browser` thread body. -/
inductive BrowserEvent where
  | sleep (seconds : Nat)
  | webbrowserOpen (url : String)
deriving DecidableEq

/-- The `open_browser` thread body (lines 42-48): `time.sleep(1)`, then
`webbrowser.open(f'http://localhost:{port}')` inside `try ... except: pass`.
`openExc` is the exception, if any, raised by the `webbrowser.open` call;
the bare `except: pass` swallows it. -/
def openBrowser (openExc : Option PyExc) : List BrowserEvent × Outcome :=
  let attempt : Outcome :=
    match openExc with
    | some e => .raised e
    | none => .normal
  ([ .sleep 1, .webbrowserOpen browserUrl ],
    match attempt with
    | .raised _ => .normal
    | o => o)

/-- Result of one server attempt: either the server constructor raised (so
no serving happened), or bind and listen succeeded and `serve_forever`
eventually ended by raising `e` (`serve_forever` never returns normally). -/
inductive AttemptResult where
  | bindError (e : PyExc)
  | servedThen (e : PyExc)
deriving DecidableEq

/-- The exception that ends an attempt. -/
def excOf : AttemptResult → PyExc
  | .bindError e => e
  | .servedThen e => e

/-- Whether an attempt got as far as running the serve loop. -/
def isServed : AttemptResult → Bool
  | .servedThen _ => true
  | .bindError _ => false

/-- Environment of one run: how the primary server attempt (lines 61-62)
ends, and how the fallback attempt (lines 69-70) would end if reached. -/
structure World where
  primary : AttemptResult
  fallback : AttemptResult
deriving DecidableEq

/-- `with socketserver.TCPServer(("", port), SimpleHTTPRequestHandler) as
httpd: httpd.serve_forever()` (lines 61-62): the `with` statement closes
the listening socket on the way out, before the exception propagates to
the `except` clauses. -/
def primaryBody (r : AttemptResult) : List Event × Outcome :=
  match r with
  | .bindError e => ([ .construct "TCPServer" "" port true ], .raised e)
  | .servedThen e =>
    ([ .construct "TCPServer" "" port true, .serve, .closeSocket ], .raised e)

/-- `httpd = HTTPServer(("", port), SimpleHTTPRequestHandler);
httpd.serve_forever()` (lines 69-70): a plain assignment, no `with`, so no
structured close of the socket. -/
def fallbackBody (r : AttemptResult) : List Event × Outcome :=
  match r with
  | .bindError e => ([ .construct "HTTPServer" "" port false ], .raised e)
  | .servedThen e => ([ .construct "HTTPServer" "" port false, .serve ], .raised e)

/-- The message printed by both interrupt handlers. -/
def stoppedMsg : String := "\nServer stopped."

/-- `except KeyboardInterrupt: print("\nServer stopped."); sys.exit(0)` —
`sys.exit(0)` raises `SystemExit(0)`. -/
def kiHandler : Handler where
  guards := isKI
  run := fun _ => ([ .printed stoppedMsg ], .raised (.systemExit 0))

/-- The inner `try` statement of the fallback path (lines 68-73). -/
def fallbackTry (f : AttemptResult) : List Event × Outcome :=
  tryExcept (fallbackBody f) [kiHandler]

/-- The bare `except:` clause (line 66): it matches every exception; its
suite runs the fallback try statement. -/
def bareHandler (f : AttemptResult) : Handler where
  guards := fun _ => true
  run := fun _ => fallbackTry f

/-- The outer `try` statement of `main` (lines 60-73). -/
def serverPhase (w : World) : List Event × Outcome :=
  tryExcept (primaryBody w.primary) [kiHandler, bareHandler w.fallback]

/-- All of `main` (lines 23-73): banner, `os.chdir` to the script
directory, browser daemon-thread start, `allow_reuse_address = True`, then
the try/except structure around the two server attempts. -/
def mainRun (w : World) : List Event × Outcome :=
  (bannerPrints ++ [ .chdir, .browserThreadStart, .setAllowReuseAddress true ]
      ++ (serverPhase w).1,
    (serverPhase w).2)

/-- The events of a run of `main`. -/
def mainTrace (w : World) : List Event := (mainRun w).1

/-- The final outcome of a run of `main`. -/
def mainOutcome (w : World) : Outcome := (mainRun w).2

/-- Event classifier: any server construction (either API). -/
def isConstruct : Event → Bool
  | .construct _ _ _ _ => true
  | _ => false

/-- Event classifier: a fallback (`HTTPServer`) construction attempt. -/
def isFallbackConstruct : Event → Bool
  | .construct api _ _ _ => api == "HTTPServer"
  | _ => false

/-- Event classifier: setting `allow_reuse_address` to true. -/
def isSetReuse : Event → Bool
  | .setAllowReuseAddress b => b
  | _ => false

/-- Event classifier: starting the browser thread. -/
def isThreadStart : Event → Bool
  | .browserThreadStart => true
  | _ => false

/-- Event classifier: the `os.chdir` call. -/
def isChdirEv : Event → Bool
  | .chdir => true
  | _ => false

/-- Browser-event classifier: the `webbrowser.open` call. -/
def isWebOpen : BrowserEvent → Bool
  | .webbrowserOpen _ => true
  | _ => false

/-- Every construction event uses port 8080. -/
def constructPort8080 : Event → Bool
  | .construct _ _ pt _ => pt == 8080
  | _ => true

/-- `onlyAfter q p l` holds when no event satisfying `p` occurs before the
first event satisfying `q` (so if no event satisfies `q`, no event may
satisfy `p` at all). -/
def onlyAfter (q p : Event → Bool) : List Event → Bool
  | [] => true
  | e :: rest => if q e then true else !p e && onlyAfter q p rest

/-- `startsWith l pat` holds when `pat` is a prefix of `l`. -/
def startsWith : List Event → List Event → Bool
  | _, [] => true
  | [], _ :: _ => false
  | a :: l, b :: pat => a == b && startsWith l pat

/-- `hasSeg pat l` holds when `pat` occurs in `l` as a contiguous
segment. -/
def hasSeg (pat : List Event) : List Event → Bool
  | [] => pat.isEmpty
  | a :: l => startsWith (a :: l) pat || hasSeg pat l

/-- Modelled from the spec: the request handling of
`SimpleHTTPRequestHandler` is Python standard-library code and is not
under src/. Per the spec, a GET whose path names a file under the root is
served with the file's exact bytes, a directory gets the default listing
behavior, and a path matching no file or directory gets a 404. A
filesystem is a finite association of paths to byte lists plus the set of
directory paths. -/
structure FileSystem where
  files : List (String × List Nat)
  dirs : List String

/-- An HTTP response: status code and body bytes. -/
structure HttpResponse where
  status : Nat
  body : List Nat
deriving DecidableEq

/-- Modelled from the spec: the default directory-listing page generated
for a directory (the spec pins down only that a directory is answered per
the default handler policy; here the listing body is built from the names
of the entries below the directory). -/
def dirListing (fs : FileSystem) (p : String) : List Nat :=
  (String.join ((fs.files.map Prod.fst).filter (fun q => p.isPrefixOf q))).toList.map Char.toNat

/-- Modelled from the spec: GET dispatch of the static file handler — an
exact file match is served with status 200 and the file's bytes, a
directory match gets the listing page, anything else gets 404. -/
def handleGet (fs : FileSystem) (p : String) : HttpResponse :=
  match List.lookup p fs.files with
  | some content => ⟨200, content⟩
  | none => if fs.dirs.contains p then ⟨200, dirListing fs p⟩ else ⟨404, []⟩

/-- A small concrete filesystem used to instantiate the file-serving
theorem. -/
def fs0 : FileSystem := ⟨[("a.txt", [104, 105])], ["sub"]⟩

/-- A run of `main` that ends in an interrupt-driven shutdown: the outcome
is an uncaught `SystemExit 0`, the process exit status is 0, and the
shutdown confirmation was printed. -/
def cleanShutdown (w : World) : Prop :=
  mainOutcome w = .raised (.systemExit 0) ∧
  exitCode (mainOutcome w) = some 0 ∧
  (mainTrace w).contains (.printed stoppedMsg) = true

/-- C1: for any file placed under the server's root, a GET for its
relative path returns status 200 with exactly the file's byte content,
and a GET for a path matching no file and no directory returns 404
(file serving modelled from the spec, since `SimpleHTTPRequestHandler`
is standard-library code outside src/). -/
theorem fileServing_correct : ∀ (fs : FileSystem) (p : String) (b : List Nat),
    (List.lookup p fs.files = some b → handleGet fs p = ⟨200, b⟩) ∧
    (List.lookup p fs.files = none → fs.dirs.contains p = false →
      handleGet fs p = ⟨404, []⟩) := by
  intro fs p b
  constructor
  · intro h
    simp [handleGet, h]
  · intro h1 h2
    simp [handleGet, h1, h2]
    simpa using h2

/-- Witness for C1 at the concrete filesystem `fs0`: the stored file is
served byte-exactly and an absent path gets 404. -/
theorem fileServing_correct_witness :
    handleGet fs0 "a.txt" = ⟨200, [104, 105]⟩ ∧
    handleGet fs0 "nope" = ⟨404, []⟩ :=
  ⟨(fileServing_correct fs0 "a.txt" [104, 105]).1 rfl,
    (fileServing_correct fs0 "nope" []).2 rfl rfl⟩

/-- C2: a keyboard interrupt while serving — on the primary path, and
likewise on the legacy fallback path — leads to the shutdown confirmation
being printed and the process exiting with status 0. -/
theorem interrupt_clean_exit : ∀ (p f : AttemptResult),
    (p = .servedThen .keyboardInterrupt → cleanShutdown ⟨p, f⟩) ∧
    (excOf p ≠ .keyboardInterrupt → f = .servedThen .keyboardInterrupt →
      cleanShutdown ⟨p, f⟩) := by
  intro p f
  constructor
  · rintro rfl
    exact ⟨rfl, rfl, rfl⟩
  · rintro h rfl
    cases p <;> rename_i e <;> cases e <;>
      first
        | exact absurd rfl h
        | exact ⟨rfl, rfl, rfl⟩

/-- Witness for C2: a clean shutdown at a concrete interrupt on the
primary path, and at a concrete interrupt on the fallback path. -/
theorem interrupt_clean_exit_witness :
    cleanShutdown ⟨.servedThen .keyboardInterrupt, .bindError (.other "OSError")⟩ ∧
    cleanShutdown ⟨.bindError (.other "OSError"), .servedThen .keyboardInterrupt⟩ :=
  ⟨(interrupt_clean_exit (.servedThen .keyboardInterrupt)
      (.bindError (.other "OSError"))).1 rfl,
    (interrupt_clean_exit (.bindError (.other "OSError"))
      (.servedThen .keyboardInterrupt)).2 (by decide) rfl⟩

/-- C3: in every run the allow-reuse-address option is enabled, and no
server construction (which binds the socket) occurs before it is
enabled. -/
theorem reuse_set_before_bind : ∀ (p f : AttemptResult),
    (mainTrace ⟨p, f⟩).contains (.setAllowReuseAddress true) = true ∧
    onlyAfter isSetReuse isConstruct (mainTrace ⟨p, f⟩) = true := by
  intro p f
  cases p <;> cases f <;> rename_i e1 e2 <;> cases e1 <;> cases e2 <;>
    exact ⟨rfl, rfl⟩

/-- C4: when the primary attempt ends with a non-interrupt exception,
exactly one fallback (`HTTPServer`) construction attempt is made, and if
the fallback attempt also ends with a non-interrupt exception, that
exception propagates unhandled out of `main`. -/
theorem fallback_once_and_propagates : ∀ (p f : AttemptResult),
    excOf p ≠ .keyboardInterrupt →
    ((mainTrace ⟨p, f⟩).countP fun ev => isFallbackConstruct ev) = 1 ∧
    (excOf f ≠ .keyboardInterrupt → mainOutcome ⟨p, f⟩ = .raised (excOf f)) := by
  intro p f h
  cases p <;> cases f <;> rename_i e1 e2 <;> cases e1 <;> cases e2 <;>
    first
      | exact absurd rfl h
      | exact ⟨rfl, fun h2 => absurd rfl h2⟩
      | exact ⟨rfl, fun h2 => rfl⟩

/-- Witness for C4: with the primary attempt failing on a concrete
`OSError` and the fallback failing likewise, one fallback construction
happens and the fallback's exception escapes `main`. -/
theorem fallback_once_and_propagates_witness :
    ((mainTrace ⟨.servedThen (.other "OSError"), .bindError (.other "OSError")⟩).countP
        fun ev => isFallbackConstruct ev) = 1 ∧
    (excOf (.bindError (.other "OSError")) ≠ PyExc.keyboardInterrupt →
      mainOutcome ⟨.servedThen (.other "OSError"), .bindError (.other "OSError")⟩ =
        .raised (excOf (.bindError (.other "OSError")))) :=
  fallback_once_and_propagates (.servedThen (.other "OSError"))
    (.bindError (.other "OSError")) (by decide)

/-- C5: in every run the working directory is changed exactly once, and
neither the browser thread start nor any server construction occurs
before that change. -/
theorem chdir_once_first : ∀ (p f : AttemptResult),
    (mainTrace ⟨p, f⟩).count Event.chdir = 1 ∧
    onlyAfter isChdirEv isThreadStart (mainTrace ⟨p, f⟩) = true ∧
    onlyAfter isChdirEv isConstruct (mainTrace ⟨p, f⟩) = true := by
  intro p f
  cases p <;> cases f <;> rename_i e1 e2 <;> cases e1 <;> cases e2 <;>
    exact ⟨rfl, rfl, rfl⟩

/-- Counterexample to C6: the url passed to `webbrowser.open` is
`http://localhost:8080` with no trailing slash — the browser-opener never
invokes the open mechanism on the string `http://localhost:8080/` claimed
by the spec. -/
theorem browser_url_lacks_slash_cex :
    browserUrl ≠ "http://localhost:8080/" ∧
    (openBrowser none).1.contains (.webbrowserOpen "http://localhost:8080/") = false ∧
    (openBrowser none).1.contains (.webbrowserOpen "http://localhost:8080") = true :=
  ⟨by decide, rfl, rfl⟩

/-- C6 as amended: in every run the browser-opener waits exactly 1 second
and then invokes the OS default-browser-open mechanism on the url
`http://localhost:8080` (port 8080, no trailing slash), which denotes the
server's root. -/
theorem browser_delay_then_open : ∀ r : Option PyExc,
    (openBrowser r).1 = [.sleep 1, .webbrowserOpen browserUrl] ∧
    browserUrl = "http://localhost:8080" ∧ port = 8080 := by
  intro r
  exact ⟨rfl, rfl, rfl⟩

/-- C7: whatever the `webbrowser.open` call raises, the browser-opener
task ends normally (the error is swallowed, nothing propagates), the open
is attempted exactly once inside it, and the thread is started exactly
once per run of `main`. -/
theorem browser_failures_swallowed : ∀ (r : Option PyExc) (p f : AttemptResult),
    (openBrowser r).2 = .normal ∧
    ((openBrowser r).1.countP fun ev => isWebOpen ev) = 1 ∧
    (mainTrace ⟨p, f⟩).count Event.browserThreadStart = 1 := by
  intro r p f
  refine ⟨?_, rfl, ?_⟩
  · cases r <;> rfl
  · cases p <;> cases f <;> rename_i e1 e2 <;> cases e1 <;> cases e2 <;> rfl

/-- Counterexample to C8: when the primary construction fails and the
fallback serve loop is ended by a keyboard interrupt, the serve loop ran
and the process exits with status 0, yet no socket release occurs — the
legacy fallback path acquires the socket without a `with` scope. -/
theorem fallback_no_release_cex :
    (mainTrace ⟨.bindError (.other "OSError"), .servedThen .keyboardInterrupt⟩).contains
      Event.serve = true ∧
    (mainTrace ⟨.bindError (.other "OSError"), .servedThen .keyboardInterrupt⟩).count
      Event.closeSocket = 0 ∧
    mainOutcome ⟨.bindError (.other "OSError"), .servedThen .keyboardInterrupt⟩ =
      .raised (.systemExit 0) :=
  ⟨rfl, rfl, rfl⟩

/-- C8 as amended: on the primary path the socket is acquired in a `with`
scope and released on every termination of the serve loop (the segment
construct-serve-close appears in the trace); socket releases happen only
there — a run whose primary construction fails (so only the fallback can
serve) contains no release at all. -/
theorem socket_release_with_scope : ∀ (p f : AttemptResult),
    (∀ e, p = .servedThen e →
      hasSeg [ Event.construct "TCPServer" "" port true, .serve, .closeSocket ]
        (mainTrace ⟨p, f⟩) = true) ∧
    (mainTrace ⟨p, f⟩).count Event.closeSocket = (if isServed p then 1 else 0) := by
  intro p f
  cases p <;> cases f <;> rename_i e1 e2 <;> cases e1 <;> cases e2 <;>
    refine ⟨fun e he => ?_, rfl⟩ <;>
    first
      | rfl
      | exact AttemptResult.noConfusion he

/-- Witness for C8 as amended: at a concrete interrupted run the scoped
construct-serve-close segment is in the trace. -/
theorem socket_release_with_scope_witness :
    hasSeg [ Event.construct "TCPServer" "" port true, .serve, .closeSocket ]
      (mainTrace ⟨.servedThen .keyboardInterrupt, .bindError (.other "OSError")⟩) = true :=
  (socket_release_with_scope (.servedThen .keyboardInterrupt)
    (.bindError (.other "OSError"))).1 .keyboardInterrupt rfl

/-- C9: the four uses of the port agree on the constant 8080 — the banner
url, the browser url, and every server construction (primary and
fallback) in every run bind port 8080; in particular the primary
construction with port 8080 and the banner line are in every trace. -/
theorem port_uses_agree :
    port = 8080 ∧
    browserUrl = "http://localhost:8080" ∧
    startingMsg = "Starting server at http://localhost:8080" ∧
    ∀ (p f : AttemptResult),
      (mainTrace ⟨p, f⟩).all constructPort8080 = true ∧
      (mainTrace ⟨p, f⟩).contains (.construct "TCPServer" "" 8080 true) = true ∧
      (mainTrace ⟨p, f⟩).contains (.printed startingMsg) = true := by
  refine ⟨rfl, rfl, rfl, ?_⟩
  intro p f
  cases p <;> cases f <;> rename_i e1 e2 <;> cases e1 <;> cases e2 <;>
    exact ⟨rfl, rfl, rfl⟩

/-- C10: when the primary attempt ends with a keyboard interrupt, the
`SystemExit 0` raised by `sys.exit(0)` inside the interrupt handler
escapes `main` (exit status 0) and no fallback construction is attempted,
even though the sibling bare `except:` clause of the same `try` statement
would match a `SystemExit` raised in the `try` suite. -/
theorem sysexit_skips_sibling_bare : ∀ (p f : AttemptResult),
    excOf p = .keyboardInterrupt →
    mainOutcome ⟨p, f⟩ = .raised (.systemExit 0) ∧
    exitCode (mainOutcome ⟨p, f⟩) = some 0 ∧
    ((mainTrace ⟨p, f⟩).countP fun ev => isFallbackConstruct ev) = 0 ∧
    (bareHandler f).guards (.systemExit 0) = true := by
  intro p f h
  cases p <;> rename_i e <;> cases e <;>
    first
      | exact ⟨rfl, rfl, rfl, rfl⟩
      | exact PyExc.noConfusion h

/-- Witness for C10: at a concrete interrupted run the `SystemExit 0`
escapes and the fallback is never constructed. -/
theorem sysexit_skips_sibling_bare_witness :
    mainOutcome ⟨.servedThen .keyboardInterrupt, .servedThen (.other "OSError")⟩ =
      .raised (.systemExit 0) ∧
    exitCode (mainOutcome ⟨.servedThen .keyboardInterrupt, .servedThen (.other "OSError")⟩) =
      some 0 ∧
    ((mainTrace ⟨.servedThen .keyboardInterrupt, .servedThen (.other "OSError")⟩).countP
        fun ev => isFallbackConstruct ev) = 0 ∧
    (bareHandler (.servedThen (.other "OSError"))).guards (.systemExit 0) = true :=
  sysexit_skips_sibling_bare (.servedThen .keyboardInterrupt)
    (.servedThen (.other "OSError")) rfl

end StartPy
